import Mathlib

/-!
Verification of the school-administration UI units of this repository:
a student-enrollment edit dialog (`EditEnrollmentDialog`) and a teacher
edit page (`EditTeacherPage`).  The components are shallowly embedded:
each event handler becomes a pure function returning the list of
observable events (callback invocations, toasts, navigation, open/close
signals) it emits, in order, and each render becomes a pure function
from the component inputs to a render result.
-/

namespace SchoolHub

/-- The `Student` interface of `EditEnrollmentDialog`: identifier, name,
admission number, current class, current section, current academic year. -/
structure Student where
  id : String
  name : String
  admissionNumber : String
  currentClass : String
  currentSection : String
  currentYear : String
  deriving DecidableEq, Repr

/-- `EnrollmentFormValues`, the value object validated by the enrollment
schema and passed to `onSave`.  The TypeScript field names `class` and
`section` are Lean keywords, so they are rendered `class_` and `section_`. -/
structure EnrollmentFormValues where
  studentId : String
  academicYear : String
  class_ : String
  section_ : String
  rollNumber : String
  feeStructure : String
  status : String
  deriving DecidableEq, Repr

/-- Modelled from the spec: `TeacherFormValues` (declared in
`@/schemas/teacher.schema`, a file not present under `src/`) is the record
of validated teacher-profile form values.  The spec lists the teacher
profile fields; the page itself only reads the `name` field of the
submitted data. -/
structure TeacherFormValues where
  name : String
  staffId : String
  department : String
  role : String
  phone : String
  email : String
  qualification : String
  deriving DecidableEq, Repr

/-- Observable events emitted by the two components: the `onSave` callback
of the enrollment dialog, the update handling of the teacher page, toast
notifications (title and description), the `onOpenChange` signal of the
dialog, router navigation, and the surfacing of field-level validation
errors. -/
inductive Event where
  | saveEnrollment (values : EnrollmentFormValues)
  | updateTeacher (data : TeacherFormValues)
  | toast (title : String) (description : String)
  | openChange (b : Bool)
  | navigate (target : String)
  | fieldErrors
  deriving DecidableEq, Repr

/-- The fixed option list `academicYears` of `EditEnrollmentDialog`. -/
def academicYears : List String := ["2024-2025", "2025-2026", "2023-2024"]

/-- The fixed option list `classes` of `EditEnrollmentDialog`. -/
def classes : List String :=
  ["XII", "XI", "X", "IX", "VIII", "VII", "VI", "V", "IV", "III", "II", "I"]

/-- The fixed option list `sections` of `EditEnrollmentDialog`. -/
def sections : List String := ["A", "B", "C", "D"]

/-- The fixed option list `feeStructures` of `EditEnrollmentDialog`. -/
def feeStructures : List String :=
  ["Standard Fee - ₹50,000/year",
   "Science Stream - ₹60,000/year",
   "Commerce Stream - ₹55,000/year",
   "Arts Stream - ₹45,000/year"]

/-- Modelled from the spec: `enrollmentSchema` (declared in
`@/schemas/enrollment.schema`, a file not present under `src/`) validates
an `EnrollmentFormValues` object; per the spec, enumerated fields must
match one of the fixed option lists (three academic years, twelve classes,
four sections, four fee-structure strings). -/
def enrollmentSchemaValid (v : EnrollmentFormValues) : Bool :=
  decide (v.academicYear ∈ academicYears) &&
  decide (v.class_ ∈ classes) &&
  decide (v.section_ ∈ sections) &&
  decide (v.feeStructure ∈ feeStructures)

/-- The optional-chaining access `student?.name` used in the toast of
`onSubmit`: a missing student interpolates as the string rendering of
JavaScript `undefined`. -/
def studentNameOrUndefined : Option Student → String
  | some s => s.name
  | none => "undefined"

/-- The `onSubmit` handler of `EditEnrollmentDialog` (part_000 lines
84-96): it invokes `onSave` with the validated values, emits the
confirmation toast interpolating the student name, then calls
`onOpenChange false`, in that order. -/
def onSubmit (student : Option Student) (values : EnrollmentFormValues) :
    List Event :=
  [Event.saveEnrollment values,
   Event.toast "Enrollment Updated"
     ("Enrollment details for " ++ studentNameOrUndefined student ++
      " have been updated."),
   Event.openChange false]

/-- The submission pipeline `form.handleSubmit(onSubmit)` (part_000 line
124) with `zodResolver(enrollmentSchema)` (line 58): when the resolver
accepts the values, `onSubmit` runs; otherwise submission is blocked and
the field-level errors are surfaced inline (the `FormMessage` elements),
with no callback invoked. -/
def handleSubmitEnrollment (student : Option Student)
    (values : EnrollmentFormValues) : List Event :=
  if enrollmentSchemaValid values then onSubmit student values
  else [Event.fieldErrors]

/-- The form state written by the reset effect of `EditEnrollmentDialog`
(part_000 lines 72-80) for a present student. -/
def resetValues (s : Student) : EnrollmentFormValues :=
  { studentId := s.id
    academicYear := s.currentYear
    class_ := s.currentClass
    section_ := s.currentSection
    rollNumber := ""
    feeStructure := ""
    status := "enrolled" }

/-- The reset effect of `EditEnrollmentDialog` (part_000 lines 70-82):
when the effect fires with `student && open`, the form state is reset via
`form.reset`, discarding the prior state; otherwise the prior state is
kept. -/
def resetEffect (student : Option Student) (open_ : Bool)
    (prior : EnrollmentFormValues) : EnrollmentFormValues :=
  match student with
  | some s => if open_ then resetValues s else prior
  | none => prior

/-- Render result of `EditEnrollmentDialog`: either nothing (the
`return null` branch) or the dialog bound to the `open` flag and showing
the student's name and admission number in its description. -/
inductive DialogRender where
  | nothing
  | dialog (open_ : Bool) (studentName : String) (admissionNumber : String)
  deriving DecidableEq, Repr

/-- The render of `EditEnrollmentDialog` (part_000 lines 108-246): the
guard `if (!student) return null` renders nothing whenever the student is
absent; otherwise the dialog is rendered with the `open` flag. -/
def renderEditEnrollmentDialog (open_ : Bool) (student : Option Student) :
    DialogRender :=
  match student with
  | none => DialogRender.nothing
  | some s => DialogRender.dialog open_ s.name s.admissionNumber

/-- The cancel action of the enrollment dialog (part_000 line 234):
`onClick` calls `onOpenChange(false)` and nothing else. -/
def cancelEnrollment : List Event := [Event.openChange false]

/-- A subject-assignment tuple of a teacher record (subject, class,
section); `class` and `section` are Lean keywords and are rendered
`class_` and `section_`. -/
structure SubjectAssignment where
  subject : String
  class_ : String
  section_ : String
  deriving DecidableEq, Repr

/-- Per-day availability of a teacher (available flag, start time, end
time); `from` is a Lean keyword and is rendered `from_`. -/
structure DayAvailability where
  available : Bool
  from_ : String
  to_ : String
  deriving DecidableEq, Repr

/-- The per-weekday availability map of a teacher record. -/
structure Availability where
  monday : DayAvailability
  tuesday : DayAvailability
  wednesday : DayAvailability
  thursday : DayAvailability
  friday : DayAvailability
  saturday : DayAvailability
  sunday : DayAvailability
  deriving DecidableEq, Repr

/-- The teacher record of `EditTeacherPage`.  The `dob` and `joiningDate`
fields are `Date` objects in the source, constructed from ISO date
strings; they are embedded as those strings. -/
structure Teacher where
  id : String
  name : String
  staffId : String
  department : String
  role : String
  phone : String
  email : String
  qualification : String
  photo : String
  gender : String
  address : String
  dob : String
  joiningDate : String
  subjects : List SubjectAssignment
  availability : Availability
  deriving DecidableEq, Repr

/-- Weekday availability 09:00-15:00 Monday-Thursday, used repeatedly in
the mock data below. -/
def avail (f t : String) : DayAvailability :=
  { available := true, from_ := f, to_ := t }

/-- An unavailable day in the mock data. -/
def unavail : DayAvailability := { available := false, from_ := "", to_ := "" }

/-- The mock teacher dataset of `EditTeacherPage.tsx` (lines 13-155). -/
def teachers : List Teacher :=
  [{ id := "1", name := "Dr. Rahul Sharma", staffId := "TCH001",
     department := "Science", role := "Head of Department",
     phone := "9876543210", email := "rahul.sharma@school.edu",
     qualification := "Ph.D. Physics", photo := "", gender := "Male",
     address := "123 Education Street, Academic Colony, New Delhi",
     dob := "1980-05-15", joiningDate := "2010-06-01",
     subjects :=
       [{ subject := "Physics", class_ := "Class 11", section_ := "A" },
        { subject := "Physics", class_ := "Class 12", section_ := "A" },
        { subject := "Science", class_ := "Class 10", section_ := "B" }],
     availability :=
       { monday := avail "09:00" "15:00", tuesday := avail "09:00" "15:00",
         wednesday := avail "09:00" "15:00", thursday := avail "09:00" "15:00",
         friday := avail "09:00" "13:00", saturday := unavail,
         sunday := unavail } },
   { id := "2", name := "Priya Patel", staffId := "TCH002",
     department := "Mathematics", role := "Senior Teacher",
     phone := "9876543211", email := "priya.patel@school.edu",
     qualification := "M.Sc. Mathematics", photo := "", gender := "Female",
     address := "456 Knowledge Park, Faculty Housing, Mumbai",
     dob := "1985-03-22", joiningDate := "2012-07-15",
     subjects :=
       [{ subject := "Mathematics", class_ := "Class 9", section_ := "A" },
        { subject := "Mathematics", class_ := "Class 10", section_ := "A" },
        { subject := "Mathematics", class_ := "Class 8", section_ := "B" }],
     availability :=
       { monday := avail "08:30" "14:30", tuesday := avail "08:30" "14:30",
         wednesday := avail "08:30" "12:30", thursday := avail "08:30" "14:30",
         friday := avail "08:30" "14:30", saturday := unavail,
         sunday := unavail } },
   { id := "3", name := "Anil Kumar", staffId := "TCH003",
     department := "Languages", role := "Teacher",
     phone := "9876543212", email := "anil.kumar@school.edu",
     qualification := "M.A. English", photo := "", gender := "Male",
     address := "789 Literature Lane, Faculty Quarters, Bangalore",
     dob := "1982-11-10", joiningDate := "2015-03-20",
     subjects :=
       [{ subject := "English", class_ := "Class 9", section_ := "A" },
        { subject := "English", class_ := "Class 10", section_ := "B" },
        { subject := "Hindi", class_ := "Class 8", section_ := "C" }],
     availability :=
       { monday := avail "09:00" "15:00", tuesday := avail "09:00" "15:00",
         wednesday := avail "09:00" "15:00", thursday := avail "09:00" "15:00",
         friday := avail "09:00" "15:00", saturday := unavail,
         sunday := unavail } },
   { id := "4", name := "Sunita Reddy", staffId := "TCH004",
     department := "Social Studies", role := "Teacher",
     phone := "9876543213", email := "sunita.reddy@school.edu",
     qualification := "M.A. History", photo := "", gender := "Female",
     address := "101 History Avenue, Teacher Colony, Chennai",
     dob := "1987-04-25", joiningDate := "2016-08-05",
     subjects :=
       [{ subject := "History", class_ := "Class 9", section_ := "A" },
        { subject := "Geography", class_ := "Class 10", section_ := "B" },
        { subject := "Social Studies", class_ := "Class 8", section_ := "A" }],
     availability :=
       { monday := avail "09:00" "15:00", tuesday := avail "09:00" "15:00",
         wednesday := avail "09:00" "15:00", thursday := avail "09:00" "15:00",
         friday := avail "09:00" "15:00", saturday := unavail,
         sunday := unavail } },
   { id := "5", name := "Rajesh Gupta", staffId := "TCH005",
     department := "Administration", role := "Principal",
     phone := "9876543214", email := "rajesh.gupta@school.edu",
     qualification := "Ph.D. Education", photo := "", gender := "Male",
     address := "202 Admin Block, School Campus, Hyderabad",
     dob := "1975-09-30", joiningDate := "2008-01-15",
     subjects := [],
     availability :=
       { monday := avail "08:00" "16:00", tuesday := avail "08:00" "16:00",
         wednesday := avail "08:00" "16:00", thursday := avail "08:00" "16:00",
         friday := avail "08:00" "16:00", saturday := unavail,
         sunday := unavail } }]

/-- The lookup `teachers.find(t => t.id === id)` of `EditTeacherPage.tsx`
line 163: first teacher whose id is exactly equal to the route id. -/
def findTeacher (id : String) : Option Teacher :=
  teachers.find? (fun t => t.id == id)

/-- The `handleSubmit` handler of `EditTeacherPage.tsx` (lines 165-176):
the page-level update callback receiving the validated form values.  It
processes the update with the submitted data, emits the confirmation
toast whose description interpolates `data.name`, then navigates to the
detail view of the route id, in that order. -/
def handleSubmitTeacher (id : String) (data : TeacherFormValues) :
    List Event :=
  [Event.updateTeacher data,
   Event.toast "Teacher Updated"
     (data.name ++ "\x27s information has been updated successfully."),
   Event.navigate ("/teachers/" ++ id)]

/-- The `onCancel` callback the page hands to `EditTeacherForm`
(`EditTeacherPage.tsx` line 206): navigate to the teacher detail view,
nothing else. -/
def onCancelTeacher (id : String) : List Event :=
  [Event.navigate ("/teachers/" ++ id)]

/-- Render result of `EditTeacherPage`: either nothing (the not-found
branch returns `null`) or the page whose edit form is seeded with the
matched teacher record. -/
inductive PageRender where
  | nothing
  | page (teacher : Teacher)
  deriving DecidableEq, Repr

/-- The body of `EditTeacherPage` (lines 157-212): when the lookup fails,
`navigate('/teachers')` fires and `null` is returned; when it succeeds,
the page renders `EditTeacherForm` seeded with the matched record and
emits no event.  The result pairs the emitted events with the render. -/
def editTeacherPage (id : String) : List Event × PageRender :=
  match findTeacher id with
  | none => ([Event.navigate "/teachers"], PageRender.nothing)
  | some t => ([], PageRender.page t)

/-- Recognizer for `onSave` invocations in an event trace. -/
def isSaveEvent : Event → Bool
  | Event.saveEnrollment _ => true
  | _ => false

/-- Recognizer for teacher-update invocations in an event trace. -/
def isUpdateEvent : Event → Bool
  | Event.updateTeacher _ => true
  | _ => false

/-- Claim C1: for every enrollment submission that passes schema
validation, the dialog invokes `onSave` exactly once with the validated
value object, emits a confirmation toast referencing the student's name,
and then signals closure by calling `onOpenChange false`, in that order. -/
theorem enrollment_submit_success_trace (s : Student)
    (v : EnrollmentFormValues) (h : enrollmentSchemaValid v = true) :
    handleSubmitEnrollment (some s) v =
      [Event.saveEnrollment v,
       Event.toast "Enrollment Updated"
         ("Enrollment details for " ++ s.name ++ " have been updated."),
       Event.openChange false] ∧
    (handleSubmitEnrollment (some s) v).filter isSaveEvent =
      [Event.saveEnrollment v] := by
  unfold handleSubmitEnrollment
  rw [h]
  exact ⟨rfl, rfl⟩

/-- Witness for C1 at a concrete valid submission. -/
theorem enrollment_submit_success_trace_witness :
    enrollmentSchemaValid
      ⟨"s1", "2025-2026", "XII", "C", "7", "Arts Stream - ₹45,000/year",
       "enrolled"⟩ = true ∧
    handleSubmitEnrollment (some ⟨"s1", "Meera", "ADM9", "XII", "C", "2025-2026"⟩)
      ⟨"s1", "2025-2026", "XII", "C", "7", "Arts Stream - ₹45,000/year",
       "enrolled"⟩ =
      [Event.saveEnrollment
         ⟨"s1", "2025-2026", "XII", "C", "7", "Arts Stream - ₹45,000/year",
          "enrolled"⟩,
       Event.toast "Enrollment Updated"
         "Enrollment details for Meera have been updated.",
       Event.openChange false] :=
  ⟨by decide,
   ((enrollment_submit_success_trace
      ⟨"s1", "Meera", "ADM9", "XII", "C", "2025-2026"⟩
      ⟨"s1", "2025-2026", "XII", "C", "7", "Arts Stream - ₹45,000/year",
       "enrolled"⟩ (by decide)).1).trans (by decide)⟩

/-- Claim C2: whenever the dialog is open with student S present, the
reset effect sets the form state to S's identifier, current year, class
and section, empty roll number, empty fee structure and status
"enrolled", discarding all prior unsaved edits. -/
theorem enrollment_open_resets_form (s : Student)
    (prior : EnrollmentFormValues) :
    resetEffect (some s) true prior =
      { studentId := s.id, academicYear := s.currentYear,
        class_ := s.currentClass, section_ := s.currentSection,
        rollNumber := "", feeStructure := "", status := "enrolled" } := rfl

/-- Claim C3: a submission whose fee structure is outside the four
declared options (or that otherwise fails the schema) never invokes
`onSave`: submission is blocked and field-level errors are surfaced
instead. -/
theorem enrollment_invalid_blocks_save :
    (∀ v : EnrollmentFormValues, v.feeStructure ∉ feeStructures →
      enrollmentSchemaValid v = false) ∧
    ∀ (student : Option Student) (v : EnrollmentFormValues),
      enrollmentSchemaValid v = false →
      handleSubmitEnrollment student v = [Event.fieldErrors] ∧
      (handleSubmitEnrollment student v).filter isSaveEvent = [] := by
  constructor
  · intro v hv
    simp [enrollmentSchemaValid, hv]
  · intro student v hv
    unfold handleSubmitEnrollment
    rw [hv]
    exact ⟨rfl, rfl⟩

/-- Witness for C3 at a concrete out-of-enumeration fee structure. -/
theorem enrollment_invalid_blocks_save_witness :
    enrollmentSchemaValid
      ⟨"s1", "2024-2025", "X", "B", "12", "Free", "enrolled"⟩ = false ∧
    handleSubmitEnrollment none
      ⟨"s1", "2024-2025", "X", "B", "12", "Free", "enrolled"⟩ =
      [Event.fieldErrors] :=
  ⟨enrollment_invalid_blocks_save.1
     ⟨"s1", "2024-2025", "X", "B", "12", "Free", "enrolled"⟩ (by decide),
   (enrollment_invalid_blocks_save.2 none
     ⟨"s1", "2024-2025", "X", "B", "12", "Free", "enrolled"⟩ (by decide)).1⟩

/-- Claim C4: for every route identifier matching no teacher in the
record store, the page immediately navigates to the listing view
"/teachers" and renders nothing. -/
theorem teacher_not_found_redirects (id : String)
    (h : ∀ t ∈ teachers, t.id ≠ id) :
    editTeacherPage id = ([Event.navigate "/teachers"], PageRender.nothing) := by
  have hf : findTeacher id = none := by
    apply List.find?_eq_none.mpr
    intro t ht
    simpa using h t ht
  simp [editTeacherPage, hf]

/-- Witness for C4 at the absent identifier "999". -/
theorem teacher_not_found_redirects_witness :
    (∀ t ∈ teachers, t.id ≠ "999") ∧
    editTeacherPage "999" =
      ([Event.navigate "/teachers"], PageRender.nothing) :=
  ⟨by decide, teacher_not_found_redirects "999" (by decide)⟩

/-- Claim C5: the student `{id:"s1", name:"A", admissionNumber:"ADM1",
currentClass:"X", currentSection:"B", currentYear:"2024-2025"}` opened
in the dialog, with roll number "12" and fee structure
"Standard Fee - ₹50,000/year" entered and submitted, yields `onSave`
with exactly the stated value object. -/
theorem enrollment_example_s1 :
    handleSubmitEnrollment (some ⟨"s1", "A", "ADM1", "X", "B", "2024-2025"⟩)
      { resetValues ⟨"s1", "A", "ADM1", "X", "B", "2024-2025"⟩ with
        rollNumber := "12",
        feeStructure := "Standard Fee - ₹50,000/year" } =
      [Event.saveEnrollment
         { studentId := "s1", academicYear := "2024-2025", class_ := "X",
           section_ := "B", rollNumber := "12",
           feeStructure := "Standard Fee - ₹50,000/year",
           status := "enrolled" },
       Event.toast "Enrollment Updated"
         "Enrollment details for A have been updated.",
       Event.openChange false] := by decide

/-- Claim C6: for every value of `open`, an absent student makes
`EditEnrollmentDialog` render nothing. -/
theorem dialog_no_student_renders_nothing (open_ : Bool) :
    renderEditEnrollmentDialog open_ none = DialogRender.nothing := rfl

/-- Claim C7: the fixed option lists hold exactly three academic years,
twelve classes, four sections and four fee-structure strings, and the
enrollment schema accepts exactly the members of these lists for the
corresponding enumerated fields. -/
theorem enrollment_option_lists_exhaustive :
    academicYears.length = 3 ∧ classes.length = 12 ∧
    sections.length = 4 ∧ feeStructures.length = 4 ∧
    ∀ v : EnrollmentFormValues,
      enrollmentSchemaValid v = true ↔
        v.academicYear ∈ academicYears ∧ v.class_ ∈ classes ∧
        v.section_ ∈ sections ∧ v.feeStructure ∈ feeStructures := by
  refine ⟨rfl, rfl, rfl, rfl, fun v => ?_⟩
  simp [enrollmentSchemaValid, and_assoc]

/-- Claim C8: for every matched teacher and validated submission, the
page receives the validated form values in its update callback, emits a
confirmation toast whose description interpolates the submitted name,
and navigates to the matched teacher's detail view, in that order. -/
theorem teacher_submit_trace (id : String) (t : Teacher)
    (hfind : findTeacher id = some t) (data : TeacherFormValues) :
    editTeacherPage id = ([], PageRender.page t) ∧
    handleSubmitTeacher id data =
      [Event.updateTeacher data,
       Event.toast "Teacher Updated"
         (data.name ++ "\x27s information has been updated successfully."),
       Event.navigate ("/teachers/" ++ t.id)] := by
  have hp := List.find?_some
    (show teachers.find? (fun x => x.id == id) = some t from hfind)
  have hid : t.id = id := by simpa using hp
  constructor
  · simp [editTeacherPage, hfind]
  · simp [handleSubmitTeacher, hid]

/-- Witness for C8 at teacher "1" with a concrete submission. -/
theorem teacher_submit_trace_witness :
    handleSubmitTeacher "1"
      { name := "Dr. Rahul Sharma", staffId := "TCH001",
        department := "Science", role := "Head of Department",
        phone := "9876543210", email := "rahul.sharma@school.edu",
        qualification := "Ph.D. Physics" } =
      [Event.updateTeacher
         { name := "Dr. Rahul Sharma", staffId := "TCH001",
           department := "Science", role := "Head of Department",
           phone := "9876543210", email := "rahul.sharma@school.edu",
           qualification := "Ph.D. Physics" },
       Event.toast "Teacher Updated"
         "Dr. Rahul Sharma\x27s information has been updated successfully.",
       Event.navigate "/teachers/1"] :=
  ((teacher_submit_trace "1" (teachers.get ⟨0, by decide⟩) (by decide)
      { name := "Dr. Rahul Sharma", staffId := "TCH001",
        department := "Science", role := "Head of Department",
        phone := "9876543210", email := "rahul.sharma@school.edu",
        qualification := "Ph.D. Physics" }).2).trans (by decide)

/-- Claim C9: cancelling either form never invokes its save or update
callback: the dialog's cancel action only signals `onOpenChange false`,
and the page's cancel action only navigates to the teacher's detail
view. -/
theorem cancel_never_saves :
    (cancelEnrollment = [Event.openChange false] ∧
     cancelEnrollment.filter isSaveEvent = []) ∧
    ∀ id : String,
      onCancelTeacher id = [Event.navigate ("/teachers/" ++ id)] ∧
      (onCancelTeacher id).filter isUpdateEvent = [] :=
  ⟨⟨rfl, rfl⟩, fun _ => ⟨rfl, rfl⟩⟩

/-- Claim C10: the confirmation toast of a teacher submission is built
from the submitted data's `name` field, independently of the route
identifier and the stored record, so equal submitted names always yield
the identical notification. -/
theorem teacher_toast_uses_submitted_name (id id2 : String)
    (data data2 : TeacherFormValues) (h : data.name = data2.name) :
    (handleSubmitTeacher id data)[1]? =
      some (Event.toast "Teacher Updated"
        (data.name ++ "\x27s information has been updated successfully.")) ∧
    (handleSubmitTeacher id data)[1]? = (handleSubmitTeacher id2 data2)[1]? := by
  constructor
  · rfl
  · simp [handleSubmitTeacher, h]

/-- Witness for C10: two submissions with equal names but different
route ids, departments and stored records produce the same toast, whose
text shows the submitted (edited) name rather than the stored one. -/
theorem teacher_toast_uses_submitted_name_witness :
    (handleSubmitTeacher "1"
      { name := "New Name", staffId := "TCH001", department := "Science",
        role := "Head of Department", phone := "9876543210",
        email := "rahul.sharma@school.edu",
        qualification := "Ph.D. Physics" })[1]? =
      some (Event.toast "Teacher Updated"
        "New Name\x27s information has been updated successfully.") ∧
    (handleSubmitTeacher "1"
      { name := "New Name", staffId := "TCH001", department := "Science",
        role := "Head of Department", phone := "9876543210",
        email := "rahul.sharma@school.edu",
        qualification := "Ph.D. Physics" })[1]? =
    (handleSubmitTeacher "2"
      { name := "New Name", staffId := "TCH002",
        department := "Mathematics", role := "Senior Teacher",
        phone := "9876543211", email := "priya.patel@school.edu",
        qualification := "M.Sc. Mathematics" })[1]? :=
  have h := teacher_toast_uses_submitted_name "1" "2"
    { name := "New Name", staffId := "TCH001", department := "Science",
      role := "Head of Department", phone := "9876543210",
      email := "rahul.sharma@school.edu", qualification := "Ph.D. Physics" }
    { name := "New Name", staffId := "TCH002", department := "Mathematics",
      role := "Senior Teacher", phone := "9876543211",
      email := "priya.patel@school.edu",
      qualification := "M.Sc. Mathematics" } rfl
  ⟨h.1.trans (by decide), h.2⟩

end SchoolHub
